import Mathlib

/-!
Shallow embedding of the repo-authored logic of `openai-agents-blueprints`
(example scripts around an external agents SDK), together with proofs of the
claims about that logic.  Python strings are modelled as `String` / `List Char`,
Python numbers as `ℚ` (exact arithmetic), fallible code as `Except`/`Option`.
-/

/-! ## chapter 3 `tools/data_tools.py`: `summarize_data` -/

/-- Result of `summarize_data`: either the fixed message (empty input) or the
statistics dict. -/
inductive SummarizeResult where
  | message (s : String)
  | stats (count : Nat) (mn mx average : ℚ)
deriving DecidableEq, Repr

/-- `summarize_data` from `chapter 3/.../tools/data_tools.py`: on an empty list
returns the string `"No data provided."`; otherwise the count, `min(data)`,
`max(data)` and `sum(data)/len(data)`. -/
def summarize_data : List ℚ → SummarizeResult
  | [] => .message "No data provided."
  | x :: xs =>
      .stats (x :: xs).length (xs.foldl min x) (xs.foldl max x)
        ((x :: xs).sum / (x :: xs).length)

theorem foldl_min_mem (xs : List ℚ) (x : ℚ) : xs.foldl min x ∈ x :: xs := by
  induction xs generalizing x with
  | nil => simp
  | cons y ys ih =>
      rw [List.foldl_cons]
      rcases List.mem_cons.mp (ih (min x y)) with h | h
      · rcases min_choice x y with hm | hm
        · rw [h, hm]; exact List.mem_cons_self _ _
        · rw [h, hm]; exact List.mem_cons_of_mem _ (List.mem_cons_self _ _)
      · exact List.mem_cons_of_mem _ (List.mem_cons_of_mem _ h)

theorem foldl_min_le (xs : List ℚ) (x : ℚ) :
    ∀ y ∈ x :: xs, xs.foldl min x ≤ y := by
  induction xs generalizing x with
  | nil =>
      intro y hy
      simp at hy
      simp [hy]
  | cons z zs ih =>
      intro y hy
      rw [List.foldl_cons]
      rcases List.mem_cons.mp hy with h | h
      · subst h
        exact le_trans (ih _ _ (List.mem_cons_self _ _)) (min_le_left _ _)
      · rcases List.mem_cons.mp h with h2 | h2
        · subst h2
          exact le_trans (ih _ _ (List.mem_cons_self _ _)) (min_le_right _ _)
        · exact ih _ y (List.mem_cons_of_mem _ h2)

theorem foldl_max_mem (xs : List ℚ) (x : ℚ) : xs.foldl max x ∈ x :: xs := by
  induction xs generalizing x with
  | nil => simp
  | cons y ys ih =>
      rw [List.foldl_cons]
      rcases List.mem_cons.mp (ih (max x y)) with h | h
      · rcases max_choice x y with hm | hm
        · rw [h, hm]; exact List.mem_cons_self _ _
        · rw [h, hm]; exact List.mem_cons_of_mem _ (List.mem_cons_self _ _)
      · exact List.mem_cons_of_mem _ (List.mem_cons_of_mem _ h)

theorem foldl_le_max (xs : List ℚ) (x : ℚ) :
    ∀ y ∈ x :: xs, y ≤ xs.foldl max x := by
  induction xs generalizing x with
  | nil =>
      intro y hy
      simp at hy
      simp [hy]
  | cons z zs ih =>
      intro y hy
      rw [List.foldl_cons]
      rcases List.mem_cons.mp hy with h | h
      · subst h
        exact le_trans (le_max_left _ _) (ih _ _ (List.mem_cons_self _ _))
      · rcases List.mem_cons.mp h with h2 | h2
        · subst h2
          exact le_trans (le_max_right _ _) (ih _ _ (List.mem_cons_self _ _))
        · exact ih _ y (List.mem_cons_of_mem _ h2)

/-- C10: `summarize_data` returns `"No data provided."` exactly on the empty
list; on a non-empty list it returns a stats record whose count is the length,
whose `mn`/`mx` are the least/greatest elements, and whose average is the sum
divided by the count; the count in any stats result is positive, so the
division is only reached with a non-zero denominator. -/
theorem summarize_data_spec :
    summarize_data [] = .message "No data provided." ∧
    (∀ data : List ℚ, data ≠ [] →
      ∃ m M : ℚ,
        summarize_data data =
          .stats data.length m M (data.sum / (data.length : ℚ)) ∧
        m ∈ data ∧ M ∈ data ∧ (∀ x ∈ data, m ≤ x ∧ x ≤ M) ∧
        0 < data.length) := by
  constructor
  · rfl
  · intro data hne
    match data with
    | [] => exact absurd rfl hne
    | x :: xs =>
        refine ⟨xs.foldl min x, xs.foldl max x, rfl, foldl_min_mem xs x,
          foldl_max_mem xs x, ?_, Nat.succ_pos _⟩
        intro y hy
        exact ⟨foldl_min_le xs x y hy, foldl_le_max xs x y hy⟩

/-- Witness for `summarize_data_spec` at the concrete list `[3, 1, 2]`. -/
theorem summarize_data_spec_witness :
    ∃ m M : ℚ,
      summarize_data [3, 1, 2] =
        .stats ([3, 1, 2] : List ℚ).length m M
          (([3, 1, 2] : List ℚ).sum / (([3, 1, 2] : List ℚ).length : ℚ)) ∧
      m ∈ ([3, 1, 2] : List ℚ) ∧ M ∈ ([3, 1, 2] : List ℚ) ∧
      (∀ x ∈ ([3, 1, 2] : List ℚ), m ≤ x ∧ x ≤ M) ∧
      0 < ([3, 1, 2] : List ℚ).length :=
  summarize_data_spec.2 [3, 1, 2] (by decide)

/-! ## API-key validation boilerplate (e.g. `chapter 1/10_manual_memory.py`,
`chapter 1/chapter 2/16_error_handling.py`) -/

/-- Python `s.startswith(pre)`, on the character lists. -/
def pyStartswith (s pre : String) : Bool :=
  pre.data.isPrefixOf s.data

/-- The module-initialization API-key check repeated across the scripts:
`api_key = os.getenv("OPENAI_API_KEY")`, raise `ValueError` if falsy, raise
`ValueError` if it does not start with `"sk-"`, otherwise proceed.  `none`
models an absent environment variable; the `Except.error` payload is the
`ValueError` message. -/
def apiKeyCheck (api_key : Option String) : Except String Unit :=
  match api_key with
  | none => .error "OPENAI_API_KEY not found. Check your .env file."
  | some k =>
      if k.data.isEmpty then
        .error "OPENAI_API_KEY not found. Check your .env file."
      else if ¬ pyStartswith k "sk-" then
        .error "Invalid OpenAI API key format."
      else
        .ok ()

/-- C4: the module-init check raises `ValueError` when `OPENAI_API_KEY` is
absent, raises `ValueError` when it is present but does not start with
`"sk-"`, and proceeds (never raises) for any present key beginning with
`"sk-"`. -/
theorem apiKeyCheck_spec :
    apiKeyCheck none = .error "OPENAI_API_KEY not found. Check your .env file." ∧
    (∀ k : String, pyStartswith k "sk-" = false →
      ∃ msg, apiKeyCheck (some k) = .error msg) ∧
    (∀ k : String, pyStartswith k "sk-" = true →
      apiKeyCheck (some k) = .ok ()) := by
  refine ⟨rfl, ?_, ?_⟩
  · intro k hk
    by_cases he : k.data.isEmpty
    · exact ⟨"OPENAI_API_KEY not found. Check your .env file.",
        by simp [apiKeyCheck, he]⟩
    · exact ⟨"Invalid OpenAI API key format.",
        by simp [apiKeyCheck, he, hk]⟩
  · intro k hk
    have hne : k.data.isEmpty = false := by
      cases hd : k.data with
      | nil =>
          exfalso
          simp [pyStartswith, hd, List.isPrefixOf] at hk
      | cons c cs => simp [hd]
    simp [apiKeyCheck, hne, hk]

/-- Witness for `apiKeyCheck_spec`: the bad key `"abc"` raises, the good key
`"sk-test"` proceeds. -/
theorem apiKeyCheck_spec_witness :
    (∃ msg, apiKeyCheck (some "abc") = .error msg) ∧
    apiKeyCheck (some "sk-test") = .ok () :=
  ⟨apiKeyCheck_spec.2.1 "abc" (by decide),
   apiKeyCheck_spec.2.2 "sk-test" (by decide)⟩

/-! ## chapter 5 `10_conditional_routing.py`: `conditional_workflow` -/

/-- Python's substring test `pat in s`, on the character lists. -/
def containsSub (s pat : String) : Bool :=
  (List.range (s.data.length + 1)).any (fun i => pat.data.isPrefixOf (s.data.drop i))

/-- Outcome extraction in `conditional_workflow`: `outcome = "SUCCESS_MEDIUM"`
as default, then the `if`/`elif` chain of substring tests on the processor
response. -/
def condOutcome (processor_response : String) : String :=
  if containsSub processor_response "SUCCESS_HIGH" then "SUCCESS_HIGH"
  else if containsSub processor_response "SUCCESS_MEDIUM" then "SUCCESS_MEDIUM"
  else if containsSub processor_response "NEEDS_REVIEW" then "NEEDS_REVIEW"
  else if containsSub processor_response "REQUIRES_ESCALATION" then "REQUIRES_ESCALATION"
  else if containsSub processor_response "ERROR" then "ERROR"
  else "SUCCESS_MEDIUM"

/-- The downstream `Runner.run` calls of `conditional_workflow` (by agent
name, in order), as dispatched by the `if`/`elif`/`else` chain on `outcome`;
the `else` branch is the `ERROR` route to the error handler. -/
def conditional_workflow_route (processor_response : String) : List String :=
  let outcome := condOutcome processor_response
  if outcome = "SUCCESS_HIGH" then ["Finalizer Agent"]
  else if outcome = "SUCCESS_MEDIUM" then ["Reviewer Agent", "Finalizer Agent"]
  else if outcome = "NEEDS_REVIEW" then ["Human Review Agent"]
  else if outcome = "REQUIRES_ESCALATION" then ["Supervisor Agent"]
  else ["Error Handler Agent"]

/-- The claim's wording: the routing outcome is the first label of the fixed
order whose text occurs in the response, defaulting to `SUCCESS_MEDIUM`. -/
def firstMatchingLabel (resp : String) : String :=
  match (["SUCCESS_HIGH", "SUCCESS_MEDIUM", "NEEDS_REVIEW",
          "REQUIRES_ESCALATION", "ERROR"].find? fun l => containsSub resp l) with
  | some l => l
  | none => "SUCCESS_MEDIUM"

/-- The claim's routing table: which single downstream path each outcome
selects. -/
def claimRouteOf (outcome : String) : List String :=
  if outcome = "SUCCESS_HIGH" then ["Finalizer Agent"]
  else if outcome = "SUCCESS_MEDIUM" then ["Reviewer Agent", "Finalizer Agent"]
  else if outcome = "NEEDS_REVIEW" then ["Human Review Agent"]
  else if outcome = "REQUIRES_ESCALATION" then ["Supervisor Agent"]
  else ["Error Handler Agent"]

/-- C1: for every processor response, the outcome computed by
`conditional_workflow` is the first matching label in the fixed order
(`SUCCESS_MEDIUM` when none occurs), the outcome is always one of the five
labels, and the downstream invocations are exactly the single route the
claim's table assigns to that outcome. -/
theorem conditional_workflow_spec (resp : String) :
    condOutcome resp = firstMatchingLabel resp ∧
    condOutcome resp ∈ ["SUCCESS_HIGH", "SUCCESS_MEDIUM", "NEEDS_REVIEW",
      "REQUIRES_ESCALATION", "ERROR"] ∧
    conditional_workflow_route resp = claimRouteOf (firstMatchingLabel resp) := by
  by_cases h1 : containsSub resp "SUCCESS_HIGH"
  · refine ⟨?_, ?_, ?_⟩ <;>
      simp [condOutcome, firstMatchingLabel, conditional_workflow_route,
        claimRouteOf, h1]
  · by_cases h2 : containsSub resp "SUCCESS_MEDIUM"
    · refine ⟨?_, ?_, ?_⟩ <;>
        simp [condOutcome, firstMatchingLabel, conditional_workflow_route,
          claimRouteOf, h1, h2]
    · by_cases h3 : containsSub resp "NEEDS_REVIEW"
      · refine ⟨?_, ?_, ?_⟩ <;>
          simp [condOutcome, firstMatchingLabel, conditional_workflow_route,
            claimRouteOf, h1, h2, h3]
      · by_cases h4 : containsSub resp "REQUIRES_ESCALATION"
        · refine ⟨?_, ?_, ?_⟩ <;>
            simp [condOutcome, firstMatchingLabel, conditional_workflow_route,
              claimRouteOf, h1, h2, h3, h4]
        · by_cases h5 : containsSub resp "ERROR"
          · refine ⟨?_, ?_, ?_⟩ <;>
              simp [condOutcome, firstMatchingLabel, conditional_workflow_route,
                claimRouteOf, h1, h2, h3, h4, h5]
          · refine ⟨?_, ?_, ?_⟩ <;>
              simp [condOutcome, firstMatchingLabel, conditional_workflow_route,
                claimRouteOf, h1, h2, h3, h4, h5]

/-! ## chapter 7 `02_key_validation.py`: `APIKeyManager.validate_key`

The helpers `_validate_key_format`, `_find_key_by_hash` (composed with
`_hash_key`), `_check_rate_limit` and `_check_scope_permission` live outside
this file; their outcomes are modelled as fields of an environment record so
that `validate_key`'s own control flow is embedded exactly. -/

inductive KeyStatus where
  | active | revoked | suspended | expired
deriving DecidableEq, Repr

/-- `key_info.status.value`. -/
def KeyStatus.value : KeyStatus → String
  | .active => "active"
  | .revoked => "revoked"
  | .suspended => "suspended"
  | .expired => "expired"

structure KeyInfo where
  key_id : String
  status : KeyStatus
  /-- `key_info.expires_at and datetime.now() > key_info.expires_at`. -/
  expired_now : Bool
  ip_whitelist : List String
  allowed_tools : List String
  scope : String
  name : String
deriving DecidableEq, Repr

/-- Outcomes of the manager-level helpers `validate_key` calls. -/
structure KeyValidationEnv where
  /-- `self._validate_key_format(api_key)`. -/
  format_valid : Bool
  /-- `self._find_key_by_hash(self._hash_key(api_key))`. -/
  key_info : Option KeyInfo
  /-- `self._check_rate_limit(key_info.key_id, key_info.rate_limit)`. -/
  rate_ok : Bool
  /-- `self._check_scope_permission(key_info.scope, required_scope)`. -/
  scope_ok : Bool
deriving DecidableEq, Repr

/-- The distinct `return` statements of `validate_key`, one constructor per
failure message plus the success tuple. -/
inductive KeyValidationResult where
  | invalidFormat                          -- "Invalid key format"
  | unknownKey                             -- "Invalid API key"
  | inactive (statusValue : String)        -- f"Key is {key_info.status.value}"
  | keyExpired                             -- "Key has expired"
  | ipDenied                               -- "IP address not authorized"
  | rateLimited                            -- "Rate limit exceeded"
  | scopeDenied                            -- "Insufficient permissions"
  | toolDenied (missing : List String)     -- f"Tool access denied: {missing_tools}"
  | success (key_id scope : String) (allowed_tools : List String) (name : String)
deriving DecidableEq, Repr

/-- `set(required_tools) - set(key_info.allowed_tools)`, as the sub-list of
required tools missing from the allowed list (non-emptiness agrees with the
Python set difference). -/
def missingTools (required allowed : List String) : List String :=
  required.filter (fun t => !(allowed.contains t))

/-- The `if key_info.ip_whitelist and client_ip:` block: fails exactly when the
whitelist is non-empty, a client IP was supplied, and the IP is not listed. -/
def ipDeniedCheck (whitelist : List String) (client_ip : Option String) : Bool :=
  match client_ip with
  | none => false
  | some ip => !whitelist.isEmpty && !whitelist.contains ip

/-- `APIKeyManager.validate_key` from `chapter 7/02_key_validation.py`. -/
def validate_key (env : KeyValidationEnv) (required_scope : Option String)
    (required_tools : Option (List String)) (client_ip : Option String) :
    KeyValidationResult :=
  if !env.format_valid then .invalidFormat
  else match env.key_info with
  | none => .unknownKey
  | some ki =>
      if ki.status ≠ KeyStatus.active then .inactive ki.status.value
      else if ki.expired_now then .keyExpired
      else if ipDeniedCheck ki.ip_whitelist client_ip then .ipDenied
      else if !env.rate_ok then .rateLimited
      else if required_scope.isSome && !env.scope_ok then .scopeDenied
      else
        match required_tools with
        | some ts =>
            if ts.isEmpty then .success ki.key_id ki.scope ki.allowed_tools ki.name
            else if !(missingTools ts ki.allowed_tools).isEmpty
                    && !ki.allowed_tools.isEmpty then
              .toolDenied (missingTools ts ki.allowed_tools)
            else .success ki.key_id ki.scope ki.allowed_tools ki.name
        | none => .success ki.key_id ki.scope ki.allowed_tools ki.name

/-- C7: with every earlier check passing, a key with an empty `allowed_tools`
list passes the tool-permission check for any non-empty `required_tools`; and
whenever `validate_key` returns the "Tool access denied" failure, the key's
`allowed_tools` is non-empty and some required tool is missing from it. -/
theorem validate_key_tool_check :
    (∀ (env : KeyValidationEnv) (ki : KeyInfo) (required_scope : Option String)
        (ts : List String) (client_ip : Option String),
      env.format_valid = true → env.key_info = some ki →
      ki.status = KeyStatus.active → ki.expired_now = false →
      ipDeniedCheck ki.ip_whitelist client_ip = false → env.rate_ok = true →
      (required_scope.isSome → env.scope_ok = true) →
      ts ≠ [] → ki.allowed_tools = [] →
      validate_key env required_scope (some ts) client_ip =
        .success ki.key_id ki.scope [] ki.name) ∧
    (∀ (env : KeyValidationEnv) (required_scope : Option String)
        (required_tools : Option (List String)) (client_ip : Option String)
        (missing : List String),
      validate_key env required_scope required_tools client_ip =
        .toolDenied missing →
      ∃ ki ts, env.key_info = some ki ∧ required_tools = some ts ∧
        ki.allowed_tools ≠ [] ∧ ∃ t ∈ ts, t ∉ ki.allowed_tools) := by
  constructor
  · intro env ki required_scope ts client_ip hf hki hst hexp hip hrate hscope hts hall
    have hsc : (required_scope.isSome && !env.scope_ok) = false := by
      cases hrs : required_scope.isSome with
      | false => simp [hrs]
      | true => simp [hrs, hscope (by simp [hrs])]
    simp [validate_key, hf, hki, hst, hexp, hip, hrate, hsc, hall]
  · intro env required_scope required_tools client_ip missing h
    unfold validate_key at h
    by_cases hf : env.format_valid
    case neg => simp [hf] at h
    cases hki : env.key_info with
    | none => rw [hki] at h; simp [hf] at h
    | some ki =>
        rw [hki] at h
        simp only [hf, Bool.not_true] at h
        rw [if_neg (by simp)] at h
        refine ⟨ki, ?_⟩
        by_cases hst : ki.status = KeyStatus.active
        case neg => simp [hst] at h
        rw [if_neg (by simp [hst])] at h
        by_cases hexp : ki.expired_now
        case pos => simp [hexp] at h
        rw [if_neg (by simp [hexp])] at h
        by_cases hip : ipDeniedCheck ki.ip_whitelist client_ip
        case pos => simp [hip] at h
        rw [if_neg (by simp [hip])] at h
        by_cases hrate : env.rate_ok
        case neg => simp [hrate] at h
        rw [if_neg (by simp [hrate])] at h
        by_cases hsc : (required_scope.isSome && !env.scope_ok) = true
        case pos => simp [hsc] at h
        rw [if_neg (by simp [hsc])] at h
        cases hrt : required_tools with
        | none => rw [hrt] at h; simp at h
        | some ts =>
            rw [hrt] at h
            dsimp only at h
            by_cases hts : ts.isEmpty
            case pos => simp [hts] at h
            rw [if_neg (by simp [hts])] at h
            by_cases hmiss : (!(missingTools ts ki.allowed_tools).isEmpty
                && !ki.allowed_tools.isEmpty) = true
            case neg => simp [hmiss] at h
            rw [if_pos (by simpa using hmiss)] at h
            simp only [Bool.and_eq_true, Bool.not_eq_true',
              List.isEmpty_eq_false] at hmiss
            refine ⟨ts, rfl, rfl, hmiss.2, ?_⟩
            rcases List.exists_mem_of_ne_nil _ hmiss.1 with ⟨t, ht⟩
            have hmem := List.mem_filter.mp ht
            refine ⟨t, hmem.1, ?_⟩
            have := hmem.2
            simp only [Bool.not_eq_true'] at this
            simpa using this

/-- Witness for `validate_key_tool_check` at a concrete environment: an
active, unexpired key with no allowed tools passes for required tools
`["search"]`, and a concrete run returning "Tool access denied" exhibits the
required missing tool. -/
theorem validate_key_tool_check_witness :
    validate_key
      ⟨true, some ⟨"k1", .active, false, [], [], "read", "demo"⟩, true, true⟩
      none (some ["search"]) none =
      .success "k1" "read" [] "demo" ∧
    (∃ ki ts,
      (⟨true, some ⟨"k2", .active, false, [], ["browse"], "read", "demo2"⟩,
        true, true⟩ : KeyValidationEnv).key_info = some ki ∧
      (some ["search"] : Option (List String)) = some ts ∧
      ki.allowed_tools ≠ [] ∧ ∃ t ∈ ts, t ∉ ki.allowed_tools) :=
  ⟨validate_key_tool_check.1
      ⟨true, some ⟨"k1", .active, false, [], [], "read", "demo"⟩, true, true⟩
      ⟨"k1", .active, false, [], [], "read", "demo"⟩ none ["search"] none
      rfl rfl rfl rfl rfl rfl (by intro h; rfl) (by decide) rfl,
   validate_key_tool_check.2
      ⟨true, some ⟨"k2", .active, false, [], ["browse"], "read", "demo2"⟩,
        true, true⟩
      none (some ["search"]) none ["search"] (by decide)⟩

/-! ## chapter 1 retry loops: `RobustAgent.execute_with_retry`
(`chapter 1/chapter 2/16_error_handling.py`) and `safe_agent_execution`
(`chapter 1/05_error_handling_agent.py`)

Each `Runner.run_sync` attempt is modelled by an oracle `Nat → _` giving the
outcome of attempt `i` (a result, or the exception class raised). -/

/-- Exception classes distinguished by `execute_with_retry`'s handlers. -/
inductive RobustError where
  | maxTurns        -- except MaxTurnsExceeded
  | modelBehavior   -- except ModelBehaviorError
  | other           -- except Exception
deriving DecidableEq, Repr

inductive RobustAttempt where
  | ok (result : String)
  | exn (e : RobustError)
deriving DecidableEq, Repr

/-- How a call to `execute_with_retry` ends. -/
inductive ExecResult where
  | runResult (r : String)      -- `return result` on a successful attempt
  | fallback (final_output : String)  -- a constructed error response
  | pythonError (e : String)    -- an exception escaping the method
deriving DecidableEq, Repr

/-- `RobustAgent._create_error_response`: defines a nested class
`ErrorResult` whose `__init__` sets `final_output` and then reads
`self.agent` — but `self` there is the fresh `ErrorResult` instance (the
nested function's parameter shadows the wrapper's `self`), and `ErrorResult`
has no `agent` attribute, so construction raises `AttributeError` instead of
returning the error object. -/
def create_error_response (message : String) : ExecResult :=
  let _final_output := message
  .pythonError "AttributeError: ErrorResult object has no attribute agent"

/-- Error message chosen by the handler that caught the last attempt. -/
def robustErrorMessage : RobustError → String
  | .maxTurns => "The request was too complex to complete."
  | .modelBehavior => "Unable to process request due to response format issues."
  | .other => "An unexpected error occurred. Please try again."

/-- The `for attempt in range(self.max_retries)` loop, with `remaining`
iterations left and `idx` the current value of `attempt`; returns the
outcome together with the number of attempts performed. -/
def executeWithRetryFrom (attempts : Nat → RobustAttempt) :
    Nat → Nat → ExecResult × Nat
  | 0, idx => (create_error_response "Service temporarily unavailable.", idx)
  | n + 1, idx =>
      match attempts idx with
      | .ok r => (.runResult r, idx + 1)
      | .exn e =>
          if n = 0 then (create_error_response (robustErrorMessage e), idx + 1)
          else executeWithRetryFrom attempts n (idx + 1)

/-- `RobustAgent.execute_with_retry` (default `max_retries = 3`). -/
def execute_with_retry (max_retries : Nat) (attempts : Nat → RobustAttempt) :
    ExecResult × Nat :=
  executeWithRetryFrom attempts max_retries 0

/-- Exception classes distinguished by `safe_agent_execution`'s handlers. -/
inductive SafeError where
  | maxTurns | modelBehavior
  | agentsExc   -- except AgentsException: returns None without retrying
  | other
deriving DecidableEq, Repr

inductive SafeAttempt where
  | ok (result : String)
  | exn (e : SafeError)
deriving DecidableEq, Repr

/-- The retry loop of `safe_agent_execution`; result `none` models the
`return None` fallbacks. -/
def safeAgentExecutionFrom (attempts : Nat → SafeAttempt) :
    Nat → Nat → Option String × Nat
  | 0, idx => (none, idx)
  | n + 1, idx =>
      match attempts idx with
      | .ok r => (some r, idx + 1)
      | .exn .agentsExc => (none, idx + 1)
      | .exn _ =>
          if n = 0 then (none, idx + 1)
          else safeAgentExecutionFrom attempts n (idx + 1)

/-- `safe_agent_execution` (default `max_retries = 3`). -/
def safe_agent_execution (max_retries : Nat) (attempts : Nat → SafeAttempt) :
    Option String × Nat :=
  safeAgentExecutionFrom attempts max_retries 0

theorem executeWithRetryFrom_attempts_le (attempts : Nat → RobustAttempt) :
    ∀ n idx, (executeWithRetryFrom attempts n idx).2 ≤ idx + n := by
  intro n
  induction n with
  | zero => intro idx; simp [executeWithRetryFrom]
  | succ m ih =>
      intro idx
      unfold executeWithRetryFrom
      cases attempts idx with
      | ok r => simp
      | exn e =>
          by_cases hm : m = 0
          · simp [hm]
          · simp [hm]
            calc (executeWithRetryFrom attempts m (idx + 1)).2 ≤ idx + 1 + m :=
                  ih (idx + 1)
              _ = idx + (m + 1) := by omega

theorem safeAgentExecutionFrom_attempts_le (attempts : Nat → SafeAttempt) :
    ∀ n idx, (safeAgentExecutionFrom attempts n idx).2 ≤ idx + n := by
  intro n
  induction n with
  | zero => intro idx; simp [safeAgentExecutionFrom]
  | succ m ih =>
      intro idx
      unfold safeAgentExecutionFrom
      cases attempts idx with
      | ok r => simp
      | exn e =>
          cases e with
          | agentsExc => simp
          | maxTurns =>
              by_cases hm : m = 0
              · simp [hm]
              · simp [hm]
                calc (safeAgentExecutionFrom attempts m (idx + 1)).2 ≤ idx + 1 + m :=
                      ih (idx + 1)
                  _ = idx + (m + 1) := by omega
          | modelBehavior =>
              by_cases hm : m = 0
              · simp [hm]
              · simp [hm]
                calc (safeAgentExecutionFrom attempts m (idx + 1)).2 ≤ idx + 1 + m :=
                      ih (idx + 1)
                  _ = idx + (m + 1) := by omega
          | other =>
              by_cases hm : m = 0
              · simp [hm]
              · simp [hm]
                calc (safeAgentExecutionFrom attempts m (idx + 1)).2 ≤ idx + 1 + m :=
                      ih (idx + 1)
                  _ = idx + (m + 1) := by omega

/-- C3 (code bug): both loops are fixed-count — they perform at most
`max_retries` attempts for every outcome oracle — and `safe_agent_execution`
does return `None` after the final failed attempt; but
`RobustAgent.execute_with_retry` does not return its constructed error
response: with default `max_retries = 3` and every attempt raising
`MaxTurnsExceeded`, the run performs exactly 3 attempts and then raises
`AttributeError` out of `_create_error_response` (the nested `ErrorResult`
class reads `self.agent` on itself) instead of returning a fallback value. -/
theorem retry_loops_attempts_and_fallback :
    (∀ (max_retries : Nat) (attempts : Nat → RobustAttempt),
      (execute_with_retry max_retries attempts).2 ≤ max_retries) ∧
    (∀ (max_retries : Nat) (attempts : Nat → SafeAttempt),
      (safe_agent_execution max_retries attempts).2 ≤ max_retries) ∧
    execute_with_retry 3 (fun _ => .exn .maxTurns) =
      (.pythonError "AttributeError: ErrorResult object has no attribute agent", 3) ∧
    safe_agent_execution 3 (fun _ => .exn .maxTurns) = (none, 3) := by
  refine ⟨?_, ?_, rfl, rfl⟩
  · intro m attempts
    simpa using executeWithRetryFrom_attempts_le attempts m 0
  · intro m attempts
    simpa using safeAgentExecutionFrom_attempts_le attempts m 0

/-! ## chapter 1/chapter 2 `22_security.py`: `SecureAgentWrapper` -/

/-- Python `s.lower()` (sufficient for the ASCII patterns the demos use). -/
def pyLower (s : String) : String :=
  ⟨s.data.map Char.toLower⟩

/-- Scan of Python `str.replace` for a non-empty pattern `p :: ps`:
leftmost-first, non-overlapping. -/
def pyReplaceAux (p : Char) (ps rep : List Char) : List Char → List Char
  | [] => []
  | c :: rest =>
      if (p :: ps).isPrefixOf (c :: rest) then
        rep ++ pyReplaceAux p ps rep (rest.drop ps.length)
      else
        c :: pyReplaceAux p ps rep rest
  termination_by cs => cs.length
  decreasing_by
  · simp [List.length_drop]
    omega
  · simp

/-- Python `s.replace(pat, rep)`: all non-overlapping occurrences, left to
right; an empty pattern inserts `rep` at every position (Python semantics). -/
def pyReplace (s pat rep : String) : String :=
  match pat.data with
  | [] => ⟨rep.data ++ s.data.flatMap (fun c => c :: rep.data)⟩
  | p :: ps => ⟨pyReplaceAux p ps rep.data s.data⟩

/-- The security-policies dict, with `.get(..., default)` already applied:
`blocked_patterns` (default `[]`), `max_input_length` (default `1000`),
`redact_patterns` (default `[]`). -/
structure SecurityPolicies where
  blocked_patterns : List String
  max_input_length : Nat
  redact_patterns : List String
deriving DecidableEq, Repr

/-- `SecureAgentWrapper.validate_input`: first blocked pattern contained
case-insensitively in the input fails; then the length check; otherwise
`(True, "Input validated")`. -/
def validate_input (policies : SecurityPolicies) (user_input : String) :
    Bool × String :=
  match policies.blocked_patterns.find?
      (fun pattern => containsSub (pyLower user_input) (pyLower pattern)) with
  | some pattern => (false, "Input contains blocked pattern: " ++ pattern)
  | none =>
      if user_input.data.length > policies.max_input_length then
        (false, "Input exceeds maximum length of " ++
          toString policies.max_input_length ++ " characters")
      else
        (true, "Input validated")

/-- `SecureAgentWrapper.sanitize_output`: fold of `str.replace` over the
redact patterns, each occurrence replaced by `"[REDACTED]"`. -/
def sanitize_output (policies : SecurityPolicies) (output : String) : String :=
  policies.redact_patterns.foldl
    (fun sanitized pattern => pyReplace sanitized pattern "[REDACTED]") output

/-- The dicts returned by `secure_execute`. -/
inductive SecureResponse where
  | blocked (error : String)          -- success False, blocked True
  | ok (response agent_name : String) -- success True, sanitized response
  | failed (error : String)           -- success False (Runner.run raised)
deriving DecidableEq, Repr

/-- `SecureAgentWrapper.log_interaction`: in the file its body is an
orphaned dict fragment — the `log_entry = {` opening lines are missing and
`"success": metadata.get("success", True)` sits at a stray indentation, a
syntax error.  As written the module cannot even be loaded, so no call to
this method can ever succeed; the failure is modelled at the call site as a
raise. -/
def log_interaction_outcome : Except String Unit :=
  .error "IndentationError: unexpected indent (log_interaction body)"

/-- How a call to `secure_execute` ends. -/
inductive SecureExecOutcome where
  | returns (resp : SecureResponse)
  | raises (e : String)
deriving DecidableEq, Repr

/-- `SecureAgentWrapper.secure_execute`, with its `self.log_interaction`
calls: on invalid input the blocked dict is built and `log_interaction` runs
(outside the `try`) before the return; on a successful run the sanitized
dict's return is preceded by `log_interaction` inside the `try`, whose
failure `except Exception` catches, and the handler's own `log_interaction`
call then fails uncaught; when `Runner.run` raises, the handler logs before
returning the failure dict.  `run` is the outcome of
`Runner.run(self.agent, user_input)`; the second component records whether
`Runner.run` was invoked. -/
def secure_execute (policies : SecurityPolicies) (agent_name : String)
    (run : Except String String) (user_input : String) :
    SecureExecOutcome × Bool :=
  let v := validate_input policies user_input
  if !v.1 then
    match log_interaction_outcome with
    | .ok _ => (.returns (.blocked v.2), false)
    | .error e => (.raises e, false)
  else
    match run with
    | .ok final_output =>
        match log_interaction_outcome with
        | .ok _ =>
            (.returns (.ok (sanitize_output policies final_output) agent_name),
              true)
        | .error e1 =>
            match log_interaction_outcome with
            | .ok _ => (.returns (.failed ("Execution failed: " ++ e1)), true)
            | .error e2 => (.raises e2, true)
    | .error e =>
        match log_interaction_outcome with
        | .ok _ => (.returns (.failed ("Execution failed: " ++ e)), true)
        | .error e2 => (.raises e2, true)

/-- C5 (code bug): the guard part of the claim holds — an input containing a
blocked pattern (case-insensitively) or exceeding `max_input_length` never
reaches `Runner.run` — but no path of `secure_execute` can return the
blocked or sanitized dicts the claim describes: every return is preceded by
a `self.log_interaction` call whose body in the file is an orphaned dict
fragment (a syntax error), so every call raises instead of returning.  The
last two conjuncts evaluate the two claimed return paths at concrete
inputs. -/
theorem secure_execute_never_returns :
    (∀ (policies : SecurityPolicies) (agent_name : String)
        (run : Except String String) (user_input : String),
      ((∃ pattern ∈ policies.blocked_patterns,
          containsSub (pyLower user_input) (pyLower pattern) = true) ∨
        user_input.data.length > policies.max_input_length) →
      (secure_execute policies agent_name run user_input).2 = false) ∧
    (∀ (policies : SecurityPolicies) (agent_name : String)
        (run : Except String String) (user_input : String),
      ∃ e, (secure_execute policies agent_name run user_input).1 = .raises e) ∧
    secure_execute ⟨["password"], 1000, ["secret"]⟩ "Agent" (.ok "out")
        "my PASSWORD" =
      (.raises "IndentationError: unexpected indent (log_interaction body)",
        false) ∧
    secure_execute ⟨["password"], 1000, ["secret"]⟩ "Agent"
        (.ok "a secret here") "hello" =
      (.raises "IndentationError: unexpected indent (log_interaction body)",
        true) := by
  refine ⟨?_, ?_, by decide, by decide⟩
  · intro policies agent_name run user_input hbad
    have hv : (validate_input policies user_input).1 = false := by
      cases hfind : policies.blocked_patterns.find?
          (fun pattern => containsSub (pyLower user_input) (pyLower pattern)) with
      | some pattern => simp [validate_input, hfind]
      | none =>
          have hlen : user_input.data.length > policies.max_input_length := by
            rcases hbad with ⟨pattern, hmem, hc⟩ | hlen
            · exfalso
              have := List.find?_eq_none.mp hfind pattern hmem
              simp [hc] at this
            · exact hlen
          have hlen' : policies.max_input_length < user_input.length := hlen
          simp [validate_input, hfind, hlen']
    simp [secure_execute, hv, log_interaction_outcome]
  · intro policies agent_name run user_input
    refine ⟨"IndentationError: unexpected indent (log_interaction body)", ?_⟩
    by_cases hv : (validate_input policies user_input).1
    · cases run with
      | ok final_output => simp [secure_execute, hv, log_interaction_outcome]
      | error e => simp [secure_execute, hv, log_interaction_outcome]
    · simp [secure_execute, Bool.not_eq_true _ ▸ hv, log_interaction_outcome]

/-- Witness for `secure_execute_never_returns`: the input `"my PASSWORD"`
contains the blocked pattern `"password"`, and `Runner.run` is indeed not
invoked. -/
theorem secure_execute_never_returns_witness :
    (secure_execute ⟨["password"], 1000, ["secret"]⟩ "Agent" (.ok "out")
      "my PASSWORD").2 = false :=
  secure_execute_never_returns.1 ⟨["password"], 1000, ["secret"]⟩ "Agent"
    (.ok "out") "my PASSWORD" (Or.inl ⟨"password", by decide⟩)

/-! ## Guardrail callbacks: chapter 3 `guardrails.py` and chapter 4
`02_advanced_input_guardrails.py`

The SDK runs and LLM outputs are inputs to the embedded callbacks: the
content-safety checker's structured output, and the AI validation result
(`none` meaning `Runner.run` raised, the `except` fallback path). -/

structure ContentSafetyOutput where
  is_safe : Bool
  reasoning : String
deriving DecidableEq, Repr

/-- The SDK's `GuardrailFunctionOutput`, over the repo's `output_info`
payload types. -/
structure GuardrailOutput (α : Type) where
  output_info : α
  tripwire_triggered : Bool
deriving DecidableEq, Repr

/-- `content_safety_guardrail`: wraps the safety checker's output with
`tripwire_triggered=not safety_result.is_safe`. -/
def content_safety_guardrail (safety_result : ContentSafetyOutput) :
    GuardrailOutput ContentSafetyOutput :=
  ⟨safety_result, !safety_result.is_safe⟩

structure InputValidationResult where
  is_safe : Bool
  risk_level : String
  violations : List String
  confidence : ℚ
  recommended_action : String
deriving DecidableEq, Repr

/-- The file's `risk_hierarchy = {"low": 0, "medium": 1, "high": 2,
"critical": 3}` lookup (only ever applied to these four keys). -/
def riskHierarchy (s : String) : Nat :=
  if s = "low" then 0
  else if s = "medium" then 1
  else if s = "high" then 2
  else 3

/-- `comprehensive_input_guardrail`, as a function of the rule-based result
`basic` (from `validate_comprehensive`) and the AI validation outcome `ai`
(`none` = the `Runner.run` call raised, taking the `except` fallback):
immediate block on critical risk, AI-combined result on medium/high risk,
otherwise the basic result; tripwire is `not final_result.is_safe`. -/
def comprehensive_input_guardrail (basic : InputValidationResult)
    (ai : Option InputValidationResult) :
    GuardrailOutput InputValidationResult :=
  if basic.risk_level = "critical" then
    ⟨basic, true⟩
  else
    let final_result :=
      if basic.risk_level = "medium" ∨ basic.risk_level = "high" then
        match ai with
        | some aiv =>
            { is_safe := aiv.is_safe
              risk_level :=
                if riskHierarchy basic.risk_level < riskHierarchy aiv.risk_level
                then aiv.risk_level else basic.risk_level
              violations := (basic.violations ++ aiv.violations).dedup
              confidence := min basic.confidence aiv.confidence
              recommended_action := aiv.recommended_action }
        | none => basic
      else basic
    ⟨final_result, !final_result.is_safe⟩

/-- C2: `content_safety_guardrail` trips exactly when the checker says
unsafe; `comprehensive_input_guardrail` trips exactly when the returned
`InputValidationResult`'s `is_safe` is false — including the immediate-block
path — given the invariant the rule-based validator establishes
(`is_safe = max_risk_level in ["low", "medium"]`, so a critical-risk result
is never marked safe). -/
theorem guardrails_tripwire_iff :
    (∀ safety_result : ContentSafetyOutput,
      ((content_safety_guardrail safety_result).tripwire_triggered = true ↔
        safety_result.is_safe = false)) ∧
    (∀ (basic : InputValidationResult) (ai : Option InputValidationResult),
      (basic.risk_level = "critical" → basic.is_safe = false) →
      (((comprehensive_input_guardrail basic ai).tripwire_triggered = true) ↔
        (comprehensive_input_guardrail basic ai).output_info.is_safe = false)) := by
  constructor
  · intro safety_result
    simp [content_safety_guardrail]
  · intro basic ai hcrit
    by_cases hc : basic.risk_level = "critical"
    · simp [comprehensive_input_guardrail, hc, hcrit hc]
    · simp only [comprehensive_input_guardrail, if_neg hc]
      simp

/-- Witness for `guardrails_tripwire_iff` at concrete results: an unsafe
safety report trips the first guardrail, and a critical-risk rule-based
result (marked unsafe, as the validator guarantees) trips the second on the
immediate-block path. -/
theorem guardrails_tripwire_iff_witness :
    ((content_safety_guardrail ⟨false, "harmful"⟩).tripwire_triggered = true ↔
      (false : Bool) = false) ∧
    (((comprehensive_input_guardrail
        ⟨false, "critical", ["sensitive data"], 1/2, "block"⟩ none).tripwire_triggered
          = true) ↔
      (comprehensive_input_guardrail
        ⟨false, "critical", ["sensitive data"], 1/2, "block"⟩
          none).output_info.is_safe = false) :=
  ⟨guardrails_tripwire_iff.1 ⟨false, "harmful"⟩,
   guardrails_tripwire_iff.2
     ⟨false, "critical", ["sensitive data"], 1/2, "block"⟩ none
     (fun _ => rfl)⟩

/-! ## chapter 4 `02_advanced_input_guardrails.py`:
`AdvancedInputValidator.validate_input_length`, risk-level computation
(lines 59-74; the method's remaining lines reference names that are not
defined there, so only this computation is reachable as written). -/

/-- The whitespace classes of Python's no-argument `str.split()` (ASCII). -/
def isPySpace (c : Char) : Bool :=
  c = ' ' || c = '\t' || c = '\n' || c = '\x0d' || c = '\x0b' || c = '\x0c'

/-- Number of maximal non-whitespace runs: `len(input_text.split())`. -/
def wordCountAux : List Char → Bool → Nat
  | [], _ => 0
  | c :: rest, inWord =>
      if isPySpace c then wordCountAux rest false
      else (if inWord then 0 else 1) + wordCountAux rest true

/-- `len(input_text.split())`. -/
def pyWordCount (s : String) : Nat :=
  wordCountAux s.data false

/-- Python string `<`: lexicographic comparison of code points. -/
def pyStrLtCore : List Char → List Char → Bool
  | [], [] => false
  | [], _ :: _ => true
  | _ :: _, [] => false
  | a :: as, b :: bs =>
      if a < b then true
      else if b < a then false
      else pyStrLtCore as bs

/-- Python `max(a, b)` on strings: `a if a >= b else b`. -/
def pyStrMax (a b : String) : String :=
  if pyStrLtCore a.data b.data then b else a

/-- The risk level assigned by the character-count check alone
(`char_count > 10000` → high, `char_count > 5000` → medium, else low). -/
def charCountRisk (input_text : String) : String :=
  if input_text.data.length > 10000 then "high"
  else if input_text.data.length > 5000 then "medium"
  else "low"

/-- The risk level held after the word-count check of
`validate_input_length`: `risk_level = max(risk_level, "medium")` — Python
`max` on the *strings* — when `word_count > 2000`. -/
def lengthRiskAfterWordCheck (input_text : String) : String :=
  if pyWordCount input_text > 2000 then
    pyStrMax (charCountRisk input_text) "medium"
  else
    charCountRisk input_text

/-- The word `"aaaa "` repeated 2001 times: 2001 words, 10005 characters. -/
def c8Chunk : List Char := ['a', 'a', 'a', 'a', ' ']

def c8Input : String := ⟨(List.replicate 2001 c8Chunk).flatten⟩

theorem c8Input_length : c8Input.data.length = 10005 := by
  show ((List.replicate 2001 c8Chunk).flatten).length = 10005
  rw [List.length_flatten, List.map_replicate, List.sum_replicate]
  rfl

theorem wordCountAux_nonspace (c : Char) (h : isPySpace c = false)
    (cs : List Char) (b : Bool) :
    wordCountAux (c :: cs) b = (if b then 0 else 1) + wordCountAux cs true := by
  simp [wordCountAux, h]

theorem wordCountAux_space (c : Char) (h : isPySpace c = true)
    (cs : List Char) (b : Bool) :
    wordCountAux (c :: cs) b = wordCountAux cs false := by
  simp [wordCountAux, h]

theorem wordCountAux_c8 : ∀ n,
    wordCountAux ((List.replicate n c8Chunk).flatten) false = n := by
  intro n
  induction n with
  | zero => rfl
  | succ m ih =>
      rw [List.replicate_succ, List.flatten_cons]
      show wordCountAux (c8Chunk ++ (List.replicate m c8Chunk).flatten) false
        = m + 1
      simp only [c8Chunk, List.cons_append, List.nil_append]
      rw [wordCountAux_nonspace 'a' (by decide),
        wordCountAux_nonspace 'a' (by decide),
        wordCountAux_nonspace 'a' (by decide),
        wordCountAux_nonspace 'a' (by decide),
        wordCountAux_space ' ' (by decide)]
      simp only [c8Chunk] at ih
      rw [ih]
      simp [Nat.add_comm]

/-- C8 (code bug): the risk level is *not* monotone through the word-count
check.  On 2001 words totalling 10005 characters the character-count check
assigns `"high"`, but `max(risk_level, "medium")` compares the strings
lexicographically (`"high" < "medium"` since `'h' < 'm'`), so the check
*downgrades* the risk to `"medium"` — strictly less severe under the file's
own `risk_hierarchy` ordering. -/
theorem validate_input_length_risk_downgrade :
    charCountRisk c8Input = "high" ∧
    lengthRiskAfterWordCheck c8Input = "medium" ∧
    riskHierarchy (lengthRiskAfterWordCheck c8Input) <
      riskHierarchy (charCountRisk c8Input) := by
  have hchar : charCountRisk c8Input = "high" := by
    unfold charCountRisk
    rw [c8Input_length]
    decide
  have hword : pyWordCount c8Input = 2001 := wordCountAux_c8 2001
  have hafter : lengthRiskAfterWordCheck c8Input = "medium" := by
    unfold lengthRiskAfterWordCheck
    rw [hword, hchar]
    decide
  refine ⟨hchar, hafter, ?_⟩
  rw [hchar, hafter]
  decide

/-! ## chapter 3 `tools/validation.py`: `validate_email`

The pattern `^[a-zA-Z0-9._%+-]+@[a-zA-Z0-9.-]+\.[a-zA-Z]{2,}$` is embedded
by its character classes and an existential over the two split points (the
`@` and the final group's `.`), which is exactly the set of strings the
backtracking engine accepts for this pattern. -/

/-- The class `[a-zA-Z0-9._%+-]`. -/
def isEmailLocalChar (c : Char) : Bool :=
  c.isAlpha || c.isDigit || c = '.' || c = '_' || c = '%' || c = '+' || c = '-'

/-- The class `[a-zA-Z0-9.-]`. -/
def isEmailDomainChar (c : Char) : Bool :=
  c.isAlpha || c.isDigit || c = '.' || c = '-'

/-- `[a-zA-Z0-9.-]+\.[a-zA-Z]{2,}` against the whole of `rest`. -/
def matchDomainTld (rest : List Char) : Bool :=
  (List.range rest.length).any fun j =>
    decide (1 ≤ j) && (rest.take j).all isEmailDomainChar &&
      ((rest.drop j).head? == some '.') &&
      (rest.drop (j + 1)).all Char.isAlpha &&
      decide (2 ≤ (rest.drop (j + 1)).length)

/-- The full anchored pattern against the whole of `cs`. -/
def emailFullMatchCore (cs : List Char) : Bool :=
  (List.range cs.length).any fun i =>
    decide (1 ≤ i) && (cs.take i).all isEmailLocalChar &&
      ((cs.drop i).head? == some '@') && matchDomainTld (cs.drop (i + 1))

/-- `bool(re.match(pattern, email))`: the pattern is anchored with `$`, which
in Python also matches just before one trailing newline. -/
def pyMatchEmail (s : String) : Bool :=
  emailFullMatchCore s.data ||
    ((s.data.getLast? == some '\n') && emailFullMatchCore s.data.dropLast)

structure EmailValidationResult where
  is_valid_format : Bool
  email : String
deriving DecidableEq, Repr

/-- `validate_email` from `chapter 3/.../tools/validation.py`. -/
def validate_email (email : String) : EmailValidationResult :=
  ⟨pyMatchEmail email, email⟩

/-- Declarative reading of the anchored pattern: the whole string decomposes
as non-empty local part, `@`, non-empty domain, `.`, and a TLD of at least
two letters. -/
def matchesEmailPattern (cs : List Char) : Prop :=
  ∃ l d t : List Char,
    cs = l ++ '@' :: (d ++ '.' :: t) ∧
    l ≠ [] ∧ l.all isEmailLocalChar = true ∧
    d ≠ [] ∧ d.all isEmailDomainChar = true ∧
    t.all Char.isAlpha = true ∧ 2 ≤ t.length

theorem drop_head_cons {cs : List Char} {j : Nat} {c : Char}
    (h : (cs.drop j).head? = some c) :
    cs.drop j = c :: cs.drop (j + 1) := by
  cases hdp : cs.drop j with
  | nil => rw [hdp] at h; simp at h
  | cons a t =>
      rw [hdp] at h
      simp at h
      subst h
      have ht : cs.drop (j + 1) = t := by
        have h1 : (cs.drop j).drop 1 = cs.drop (j + 1) := List.drop_drop 1 j cs
        rw [hdp] at h1
        simpa using h1.symm
      rw [ht]

theorem matchDomainTld_iff (rest : List Char) :
    matchDomainTld rest = true ↔
      ∃ d t : List Char, rest = d ++ '.' :: t ∧ d ≠ [] ∧
        d.all isEmailDomainChar = true ∧ t.all Char.isAlpha = true ∧
        2 ≤ t.length := by
  unfold matchDomainTld
  rw [List.any_eq_true]
  constructor
  · rintro ⟨j, hj, hcond⟩
    rw [List.mem_range] at hj
    simp only [Bool.and_eq_true, decide_eq_true_eq, beq_iff_eq] at hcond
    obtain ⟨⟨⟨⟨hj1, hall⟩, hhead⟩, htall⟩, htlen⟩ := hcond
    refine ⟨rest.take j, rest.drop (j + 1), ?_, ?_, hall, htall, htlen⟩
    · conv_lhs => rw [← List.take_append_drop j rest]
      rw [drop_head_cons hhead]
    · intro hnil
      have : (rest.take j).length = j := by
        rw [List.length_take]
        omega
      rw [hnil] at this
      simp at this
      omega
  · rintro ⟨d, t, hsplit, hdne, hdall, htall, htlen⟩
    refine ⟨d.length, ?_, ?_⟩
    · rw [List.mem_range, hsplit]
      simp
    · have htake : rest.take d.length = d := by
        rw [hsplit]
        exact List.take_left d _
      have hdrop : rest.drop d.length = '.' :: t := by
        rw [hsplit]
        exact List.drop_left d _
      have hdrop1 : rest.drop (d.length + 1) = t := by
        have h1 : (rest.drop d.length).drop 1 = rest.drop (d.length + 1) :=
          List.drop_drop 1 d.length rest
        rw [hdrop] at h1
        simpa using h1.symm
      simp only [Bool.and_eq_true, decide_eq_true_eq, beq_iff_eq]
      refine ⟨⟨⟨⟨?_, by rw [htake]; exact hdall⟩, by rw [hdrop]; rfl⟩,
        by rw [hdrop1]; exact htall⟩, by rw [hdrop1]; exact htlen⟩
      have := List.length_pos.mpr hdne
      omega

theorem emailFullMatchCore_iff (cs : List Char) :
    emailFullMatchCore cs = true ↔ matchesEmailPattern cs := by
  unfold emailFullMatchCore
  rw [List.any_eq_true]
  constructor
  · rintro ⟨i, hi, hcond⟩
    rw [List.mem_range] at hi
    simp only [Bool.and_eq_true, decide_eq_true_eq, beq_iff_eq] at hcond
    obtain ⟨⟨⟨hi1, hall⟩, hhead⟩, hdom⟩ := hcond
    rcases (matchDomainTld_iff _).mp hdom with ⟨d, t, hsplit, hdne, hdall, htall, htlen⟩
    refine ⟨cs.take i, d, t, ?_, ?_, hall, hdne, hdall, htall, htlen⟩
    · conv_lhs => rw [← List.take_append_drop i cs]
      rw [drop_head_cons hhead, hsplit]
    · intro hnil
      have : (cs.take i).length = i := by
        rw [List.length_take]
        omega
      rw [hnil] at this
      simp at this
      omega
  · rintro ⟨l, d, t, hsplit, hlne, hlall, hdne, hdall, htall, htlen⟩
    refine ⟨l.length, ?_, ?_⟩
    · rw [List.mem_range, hsplit]
      simp
    · have htake : cs.take l.length = l := by
        rw [hsplit]
        exact List.take_left l _
      have hdrop : cs.drop l.length = '@' :: (d ++ '.' :: t) := by
        rw [hsplit]
        exact List.drop_left l _
      have hdrop1 : cs.drop (l.length + 1) = d ++ '.' :: t := by
        have h1 : (cs.drop l.length).drop 1 = cs.drop (l.length + 1) :=
          List.drop_drop 1 l.length cs
        rw [hdrop] at h1
        simpa using h1.symm
      simp only [Bool.and_eq_true, decide_eq_true_eq, beq_iff_eq]
      refine ⟨⟨⟨?_, by rw [htake]; exact hlall⟩, by rw [hdrop]; rfl⟩, ?_⟩
      · have := List.length_pos.mpr hlne
        omega
      · rw [hdrop1]
        exact (matchDomainTld_iff _).mpr ⟨d, t, rfl, hdne, hdall, htall, htlen⟩

/-- C9 counterexample: on `"a@b.co\n"` the code sets `is_valid_format` to
true (Python `$` matches before the trailing newline), yet the whole string
does not match the pattern — `'\n'` is in no character class. -/
theorem validate_email_newline_counterexample :
    (validate_email "a@b.co\n").is_valid_format = true ∧
    ¬ matchesEmailPattern ("a@b.co\n").data :=
  ⟨by decide,
   fun h => absurd ((emailFullMatchCore_iff _).mpr h) (by decide)⟩

/-- C9 (amended): `validate_email` returns the input unchanged in `email`,
and `is_valid_format` is true exactly when the whole string — or, because
`$` also matches before one final newline, the string minus a single
trailing `'\n'` — matches the anchored pattern
local-part@domain.tld (TLD at least two letters). -/
theorem validate_email_spec (email : String) :
    (validate_email email).email = email ∧
    ((validate_email email).is_valid_format = true ↔
      (matchesEmailPattern email.data ∨
        (email.data.getLast? = some '\n' ∧
          matchesEmailPattern email.data.dropLast))) := by
  refine ⟨rfl, ?_⟩
  show pyMatchEmail email = true ↔ _
  simp only [pyMatchEmail, Bool.or_eq_true, Bool.and_eq_true, beq_iff_eq,
    emailFullMatchCore_iff]

/-! ## chapter 5 `04_handoff_input_filters.py`: `filter_sensitive_data`

The four `re.sub` calls are embedded by a scanner (`reSubScan`) that walks
the string left to right, replacing each leftmost non-overlapping match, and
per-pattern matchers that follow the backtracking engine's preference order
at a given position.  Word boundaries (`\b`) are evaluated against the
original characters on each side of the match. -/

/-- Python `\w` (ASCII): letters, digits, underscore. -/
def isWordChar (c : Char) : Bool :=
  c.isAlpha || c.isDigit || c = '_'

def optWord (o : Option Char) : Bool :=
  match o with
  | none => false
  | some c => isWordChar c

/-- `\b` between two (possibly absent) neighbouring characters. -/
def isBoundary (prev next : Option Char) : Bool :=
  optWord prev != optWord next

/-- `\d{n}` at the head, returning the remainder. -/
def matchDigits : Nat → List Char → Option (List Char)
  | 0, cs => some cs
  | _ + 1, [] => none
  | n + 1, c :: rest => if c.isDigit then matchDigits n rest else none

/-- A literal character at the head. -/
def matchLit (ch : Char) : List Char → Option (List Char)
  | [] => none
  | c :: rest => if c = ch then some rest else none

/-- The class `[-\s]`. -/
def isSepChar (c : Char) : Bool :=
  c = '-' || isPySpace c

/-- `[-\s]?\d{4}`: the greedy optional separator is forced — if the head is a
separator the empty alternative would put `\d` on that separator, and if it
is not, the one-character alternative fails — so no backtracking remains. -/
def matchSepGroup (cs : List Char) : Option (List Char) :=
  match cs with
  | [] => none
  | c :: rest => if isSepChar c then matchDigits 4 rest else matchDigits 4 cs

/-- `\d{4}([-\s]?\d{4}){3}` (credit card). -/
def cardCore (cs : List Char) : Option (List Char) := do
  let r ← matchDigits 4 cs
  let r ← matchSepGroup r
  let r ← matchSepGroup r
  matchSepGroup r

/-- `\d{3}-\d{2}-\d{4}` (SSN). -/
def ssnCore (cs : List Char) : Option (List Char) := do
  let r ← matchDigits 3 cs
  let r ← matchLit '-' r
  let r ← matchDigits 2 r
  let r ← matchLit '-' r
  matchDigits 4 r

/-- `\d{3}-\d{3}-\d{4}` (phone). -/
def phoneCore (cs : List Char) : Option (List Char) := do
  let r ← matchDigits 3 cs
  let r ← matchLit '-' r
  let r ← matchDigits 3 r
  let r ← matchLit '-' r
  matchDigits 4 r

/-- Wraps a rigid body with the surrounding `\b...\b`, yielding the matched
length at this position.  (These bodies admit a single parse, so a failed
trailing boundary admits no shorter retry.) -/
def boundedMatch (core : List Char → Option (List Char))
    (prev : Option Char) (cs : List Char) : Option Nat :=
  if !isBoundary prev cs.head? then none
  else
    match core cs with
    | none => none
    | some r =>
        if isBoundary (cs.take (cs.length - r.length)).getLast? r.head? then
          some (cs.length - r.length)
        else none

def cardMatchLen : Option Char → List Char → Option Nat :=
  boundedMatch cardCore

def ssnMatchLen : Option Char → List Char → Option Nat :=
  boundedMatch ssnCore

def phoneMatchLen : Option Char → List Char → Option Nat :=
  boundedMatch phoneCore

/-- Length of the maximal run of `p`-characters at the head. -/
def maxRunLength (p : Char → Bool) : List Char → Nat
  | [] => 0
  | c :: rest => if p c then maxRunLength p rest + 1 else 0

/-- The (as-written) class `[A-Z|a-z]` of the e-mail pattern in this file:
letters and the literal `'|'`. -/
def isTldPipeChar (c : Char) : Bool :=
  c.isAlpha || c = '|'

/-- `[A-Z|a-z]{2,}\b` at `ts`: greedy repetition, backtracking from the
maximal run down to 2 until the trailing boundary holds. -/
def tldMatchAt (ts : List Char) : Option Nat :=
  let T := maxRunLength isTldPipeChar ts
  ((List.range (T - 1)).map (fun i => T - i)).findSome? fun l =>
    if decide (2 ≤ l) && isBoundary (ts.take l).getLast? (ts.drop l).head? then
      some l
    else none

/-- `[A-Za-z0-9.-]+\.[A-Z|a-z]{2,}\b` at `rest`: the greedy `+` backtracks
from the maximal domain run down to 1 looking for a position whose next
character is the literal dot, largest first. -/
def emailDomainMatch (rest : List Char) : Option Nat :=
  let M := maxRunLength isEmailDomainChar rest
  ((List.range M).map (fun i => M - i)).findSome? fun k =>
    if (rest.drop k).head? == some '.' then
      match tldMatchAt (rest.drop (k + 1)) with
      | some l => some (k + 1 + l)
      | none => none
    else none

/-- `\b[A-Za-z0-9._%+-]+@[A-Za-z0-9.-]+\.[A-Z|a-z]{2,}\b` at this position:
the local-part `+` is forced to the maximal run (no shorter run is followed
by `@`), then the domain part backtracks. -/
def emailSubMatchLen (prev : Option Char) (cs : List Char) : Option Nat :=
  if !isBoundary prev cs.head? then none
  else
    let L := maxRunLength isEmailLocalChar cs
    if L = 0 then none
    else
      match cs.drop L with
      | '@' :: rest =>
          match emailDomainMatch rest with
          | some n => some (L + 1 + n)
          | none => none
      | _ => none

/-- `re.sub` scan: at each position try the matcher (given the previous
original character for `\b`); on a match emit the replacement and continue
after it, else copy one character.  Every embedded pattern consumes at least
one character; `max n 1` only serves the termination measure. -/
def reSubScan (m : Option Char → List Char → Option Nat) (rep : List Char) :
    Option Char → List Char → List Char
  | _, [] => []
  | prev, c :: rest =>
      match m prev (c :: rest) with
      | some n =>
          rep ++ reSubScan m rep ((c :: rest).take (max n 1)).getLast?
            ((c :: rest).drop (max n 1))
      | none => c :: reSubScan m rep (some c) rest
  termination_by _ cs => cs.length
  decreasing_by
  · simp only [List.length_drop, List.length_cons]
    omega
  · simp

/-- `re.sub(pattern, rep, s)` for one embedded pattern. -/
def pyReSub (m : Option Char → List Char → Option Nat) (rep s : String) :
    String :=
  ⟨reSubScan m rep.data none s.data⟩

/-- The body of `filter_sensitive_data`'s user-message branch: the four
`re.sub` calls applied to `content` in order (card, SSN, phone, e-mail). -/
def redactContent (content : String) : String :=
  pyReSub emailSubMatchLen "[EMAIL-REDACTED]"
    (pyReSub phoneMatchLen "[PHONE-REDACTED]"
      (pyReSub ssnMatchLen "[SSN-REDACTED]"
        (pyReSub cardMatchLen "[CARD-REDACTED]" content)))

/-- A conversation-history message: `role` is `message.get("role")`,
`content` the `"content"` entry, `rest` the remaining dict entries (carried
through `{**message, "content": content}`). -/
structure Message where
  role : Option String
  content : String
  rest : List (String × String)
deriving DecidableEq, Repr

/-- `filter_sensitive_data`: the accumulation loop over the history. -/
def filter_sensitive_data : List Message → List Message
  | [] => []
  | message :: others =>
      (if message.role = some "user" then
        { message with content := redactContent message.content }
      else message) :: filter_sensitive_data others

/-- C6: `filter_sensitive_data` keeps length and order; each non-user
message is passed through unchanged, and each user message is unchanged
except `content`, which is rewritten by the four pattern substitutions
(card, SSN, phone, e-mail markers) embodied in `redactContent`. -/
theorem filter_sensitive_data_spec (history : List Message) :
    (filter_sensitive_data history).length = history.length ∧
    filter_sensitive_data history = history.map (fun m =>
      if m.role = some "user" then { m with content := redactContent m.content }
      else m) ∧
    (∀ m : Message,
      (if m.role = some "user" then { m with content := redactContent m.content }
        else m).role = m.role ∧
      (if m.role = some "user" then { m with content := redactContent m.content }
        else m).rest = m.rest ∧
      (¬ m.role = some "user" →
        (if m.role = some "user" then
          { m with content := redactContent m.content } else m) = m)) := by
  refine ⟨?_, ?_, ?_⟩
  · induction history with
    | nil => rfl
    | cons m others ih => simp [filter_sensitive_data, ih]
  · induction history with
    | nil => rfl
    | cons m others ih => simp [filter_sensitive_data, ih]
  · intro m
    by_cases hr : m.role = some "user"
    · simp [hr]
    · simp [hr]
